import Mathlib

/-!
Shallow embedding of the rugu repository (src/src/lib.rs and
src/src/bin/game-of-life.rs): a wgpu/winit program that configures a
presentable surface, builds one fixed render pipeline, and submits one
frame per redraw tick.  GPU side effects are recorded as an explicit
list of effects; panics are modelled as an Outcome value; the
environment input to a draw call (the result of
Surface::get_current_texture) is passed explicitly.
-/

namespace Rugu

/-- wgpu::SurfaceError: the error cases of Surface::get_current_texture. -/
inductive SurfaceError
  | Timeout
  | Outdated
  | Lost
  | OutOfMemory
  deriving DecidableEq

/-- Result of Surface::get_current_texture, the environment input to draw. -/
inductive AcquireResult
  | ok
  | err (e : SurfaceError)
  deriving DecidableEq

/-- wgpu::PresentMode (the variants of the wgpu version used by the repo). -/
inductive PresentMode
  | AutoVsync
  | AutoNoVsync
  | Fifo
  | FifoRelaxed
  | Immediate
  | Mailbox
  deriving DecidableEq

/-- wgpu::CompositeAlphaMode (the variants of the wgpu version used by the repo). -/
inductive CompositeAlphaMode
  | Auto
  | Opaque
  | PreMultiplied
  | PostMultiplied
  | Inherit
  deriving DecidableEq

/-- Modelled from the wgpu library source: CompositeAlphaMode::default() is Auto. -/
def CompositeAlphaMode.defaultMode : CompositeAlphaMode := .Auto

/-- Texture formats are treated as an abstract token type. -/
abbrev TextureFormat := Nat

/-- The claim-relevant fields of wgpu::SurfaceConfiguration as filled in by
State::new (src/src/lib.rs lines 214-234) and init (game-of-life.rs lines 133-153). -/
structure SurfaceConfig where
  format : TextureFormat
  width : Nat
  height : Nat
  present_mode : PresentMode
  alpha_mode : CompositeAlphaMode
  deriving DecidableEq

/-- Surface configuration selection at startup, from src/src/lib.rs lines 212-234
(identical in game-of-life.rs lines 131-153): format is surface_caps.formats.get(0)
with expect (abort when empty, modelled as Except.error), present_mode is
present_modes.get(0).unwrap_or(Fifo), alpha_mode is
alpha_modes.get(0).unwrap_or(CompositeAlphaMode::default()). -/
def newSurfaceConfig (formats : List TextureFormat) (present_modes : List PresentMode)
    (alpha_modes : List CompositeAlphaMode) (width height : Nat) :
    Except String SurfaceConfig :=
  match formats.head? with
  | none => .error ("Surface had no supported texture formats")
  | some format =>
      .ok { format := format
            width := width
            height := height
            present_mode := (present_modes.head?).getD PresentMode.Fifo
            alpha_mode := (alpha_modes.head?).getD CompositeAlphaMode.defaultMode }

/-- One entry per observable GPU or driver action taken during draw, in program
order.  The reconfigure effect is included so that its absence on a code path is
expressible. -/
inductive Effect
  | requestRedraw
  | warnLog
  | createView
  | beginRenderPass (clearColor : ℚ × ℚ × ℚ × ℚ)
  | setPipeline
  | setVertexBuffer (slot : Nat)
  | setBindGroup (index : Nat)
  | drawCall (vertexStart vertexEnd instStart instEnd : Nat)
  | submit
  | present
  | reconfigure (width height : Nat)
  deriving DecidableEq

/-- Whether a call returned normally or panicked with a diagnostic message. -/
inductive Outcome
  | returned
  | panicked (msg : String)
  deriving DecidableEq

/-- Vertex (src/src/lib.rs lines 30-34): position is three floats, modelled as
rationals since only construction, never arithmetic, occurs. -/
structure Vertex where
  position : ℚ × ℚ × ℚ
  deriving DecidableEq

/-- SQUARE_VERTICES (src/src/lib.rs lines 48-61). -/
def SQUARE_VERTICES : List Vertex :=
  [ { position := (-(1/2), -(1/2), 0) },
    { position := (-(1/2), 1/2, 0) },
    { position := (1/2, -(1/2), 0) },
    { position := (1/2, 1/2, 0) } ]

/-- Logical instance (src/src/lib.rs lines 69-71): a 2D translation. -/
structure Instance where
  position : ℚ × ℚ

/-- INSTANCE_DATA (src/src/lib.rs lines 95-97): a single instance at the origin. -/
def INSTANCE_DATA : List Instance := [ { position := (0, 0) } ]

namespace Lib

/-- The mutable driver state of lib.rs State relevant to the claims: the
frame-time counter (an Instant, modelled as a Nat timestamp) and the stored
surface configuration. -/
structure State where
  counter : Nat
  config : SurfaceConfig

/-- State::draw from src/src/lib.rs lines 100-170.  The counter is updated
first (lines 101-104).  Acquisition errors: Timeout returns with no effects
(lines 108-110), OutOfMemory panics (lines 111-113), Outdated and Lost hit
the catch-all arm that logs a warning and returns (lines 115-118).  On
success one render pass is recorded: clear to red, pipeline set, vertex
buffer at slot 0, instance buffer at slot 1, bind group 0, one draw call
over 0..SQUARE_VERTICES.len() vertices and 0..INSTANCE_DATA.len()
instances, then one queue submit and a present (lines 121-169). -/
def State.draw (s : State) (now : Nat) (acquire : AcquireResult) :
    State × Outcome × List Effect :=
  let s2 : State := { s with counter := now }
  match acquire with
  | .err .Timeout => (s2, .returned, [])
  | .err .OutOfMemory => (s2, .panicked ("Out of memory!"), [])
  | .err .Outdated => (s2, .returned, [.warnLog])
  | .err .Lost => (s2, .returned, [.warnLog])
  | .ok =>
      (s2, .returned,
        [ .createView,
          .beginRenderPass (1, 0, 0, 1),
          .setPipeline,
          .setVertexBuffer 0,
          .setVertexBuffer 1,
          .setBindGroup 0,
          .drawCall 0 SQUARE_VERTICES.length 0 INSTANCE_DATA.length,
          .submit,
          .present ])

end Lib

namespace Bin

/-- The mutable state of the game-of-life.rs binary relevant to the claims:
the frame-time counter, the identifier of the owned window, and the stored
surface configuration. -/
structure State where
  counter : Nat
  windowId : Nat
  config : SurfaceConfig

/-- State::draw from src/src/bin/game-of-life.rs lines 28-88.  The counter is
updated first (lines 29-32).  Timeout returns with no effects (lines 36-38),
OutOfMemory panics (lines 39-41), Outdated and Lost hit the todo! arm which
panics (line 42).  On success one render pass is recorded: clear to red,
pipeline set, one draw call over vertices 0..1 and instances 0..1 (no vertex
or instance buffer and no bind group in this variant), then one queue submit
and a present (lines 45-87). -/
def State.draw (s : State) (now : Nat) (acquire : AcquireResult) :
    State × Outcome × List Effect :=
  let s2 : State := { s with counter := now }
  match acquire with
  | .err .Timeout => (s2, .returned, [])
  | .err .OutOfMemory => (s2, .panicked ("Out of memory!"), [])
  | .err .Outdated =>
      (s2, .panicked
        ("not yet implemented: Need to handle lost and outdated surface errors; recreate surface"),
       [])
  | .err .Lost =>
      (s2, .panicked
        ("not yet implemented: Need to handle lost and outdated surface errors; recreate surface"),
       [])
  | .ok =>
      (s2, .returned,
        [ .createView,
          .beginRenderPass (1, 0, 0, 1),
          .setPipeline,
          .drawCall 0 1 0 1,
          .submit,
          .present ])

end Bin

/-- List.filter predicate picking out queue submissions. -/
def isSubmit : Effect → Bool
  | .submit => true
  | _ => false

/-- List.filter predicate picking out draw calls. -/
def isDrawCall : Effect → Bool
  | .drawCall _ _ _ _ => true
  | _ => false

/-- List.filter predicate picking out render pass recordings. -/
def isRenderPass : Effect → Bool
  | .beginRenderPass _ => true
  | _ => false

/-- Number of command buffers submitted in a list of effects. -/
def submitCount (es : List Effect) : Nat := (es.filter isSubmit).length

/-- winit::event::ElementState. -/
inductive ElementState
  | Pressed
  | Released
  deriving DecidableEq

/-- winit::event::VirtualKeyCode, abstracted to the key the program names plus
an opaque remainder of key codes. -/
inductive VirtualKeyCode
  | Escape
  | Space
  | Other (code : Nat)
  deriving DecidableEq

/-- The claim-relevant fields of winit::event::KeyboardInput. -/
structure KeyboardInput where
  state : ElementState
  virtual_keycode : Option VirtualKeyCode
  deriving DecidableEq

/-- winit::event_loop::ControlFlow, restricted to the variants the program can
produce or observe. -/
inductive ControlFlow
  | Poll
  | Wait
  | Exit
  deriving DecidableEq

/-- handle_keyboard_input from src/src/bin/game-of-life.rs lines 230-241:
return when virtual_keycode is none; on Escape with state Pressed set the
control flow to Exit; every other key code falls into the catch-all no-op
arm.  The function is total, so the Rust original cannot panic on any input. -/
def handle_keyboard_input (input : KeyboardInput) (control_flow : ControlFlow) :
    ControlFlow :=
  match input.virtual_keycode with
  | none => control_flow
  | some code =>
      match code with
      | .Escape => if input.state = ElementState.Pressed then .Exit else control_flow
      | _ => control_flow

/-- Number of events in a sequence on which the handler signals exit, reading
"signals exit" as mapping a non-exiting control flow to Exit. -/
def countExitSignals (events : List KeyboardInput) : Nat :=
  (events.filter
    (fun i => decide (handle_keyboard_input i ControlFlow.Poll = ControlFlow.Exit))).length

/-- winit::event::WindowEvent, restricted to the categories the claims need. -/
inductive WindowEvt
  | KeyboardInputEvt (input : KeyboardInput)
  | Resized (width height : Nat)
  | CloseRequested
  | OtherWindowEvt

/-- winit::event::Event, restricted to the categories run matches on. -/
inductive Event
  | MainEventsCleared
  | RedrawRequested (id : Nat)
  | WindowEvent (window_id : Nat) (event : WindowEvt)
  | OtherEvent

/-- One iteration of the event-loop closure in run, src/src/bin/game-of-life.rs
lines 209-223: MainEventsCleared requests a redraw; RedrawRequested for the
owned window id calls State::draw; a WindowEvent for the owned window id
dispatches KeyboardInput to handle_keyboard_input and ignores every other
window event (including Resized) via the inner catch-all arm; everything
else falls into the outer catch-all arm. -/
def run_step (s : Bin.State) (control_flow : ControlFlow) (ev : Event)
    (now : Nat) (acquire : AcquireResult) :
    Bin.State × ControlFlow × Outcome × List Effect :=
  match ev with
  | .MainEventsCleared => (s, control_flow, .returned, [.requestRedraw])
  | .RedrawRequested id =>
      if id = s.windowId then
        match Bin.State.draw s now acquire with
        | (s2, out, es) => (s2, control_flow, out, es)
      else (s, control_flow, .returned, [])
  | .WindowEvent window_id event =>
      if window_id = s.windowId then
        match event with
        | .KeyboardInputEvt input =>
            (s, handle_keyboard_input input control_flow, .returned, [])
        | _ => (s, control_flow, .returned, [])
      else (s, control_flow, .returned, [])
  | .OtherEvent => (s, control_flow, .returned, [])

/-- cgmath::Matrix4::from_translation for rationals: the four columns of the
homogeneous translation matrix, column-major as in cgmath (the value m c r is
the entry in column c, row r). -/
def Matrix4.from_translation (v : ℚ × ℚ × ℚ) : Fin 4 → Fin 4 → ℚ :=
  ![![1, 0, 0, 0], ![0, 1, 0, 0], ![0, 0, 1, 0], ![v.1, v.2.1, v.2.2, 1]]

/-- InstanceRaw (src/src/lib.rs lines 63-67): a 4x4 matrix of floats laid out
column-major as in the Rust field position of type four-by-four float array. -/
structure InstanceRaw where
  position : Fin 4 → Fin 4 → ℚ

/-- The From Instance for InstanceRaw conversion, src/src/lib.rs lines 73-84:
the translation matrix of the vector (x, y, 0). -/
def InstanceRaw.ofInstance (inst : Instance) : InstanceRaw :=
  { position := Matrix4.from_translation (inst.position.1, inst.position.2, 0) }

end Rugu

/-- Claim C2: the startup surface configuration is a deterministic function of the
capability lists: startup aborts with a diagnostic when the formats list is empty;
otherwise the format is the first formats entry, the present mode is the first
present-modes entry or Fifo when that list is empty, the alpha mode is the first
alpha-modes entry or the default mode when that list is empty; in particular for
formats = [A, B], present_modes = [], alpha_modes = [X] the configuration is
(A, Fifo, X). -/
theorem surface_config_first_supported :
    ∀ (pms : List Rugu.PresentMode) (ams : List Rugu.CompositeAlphaMode) (w h : Nat),
      (Rugu.newSurfaceConfig [] pms ams w h =
        .error ("Surface had no supported texture formats")) ∧
      (∀ (f : Rugu.TextureFormat) (rest : List Rugu.TextureFormat),
        Rugu.newSurfaceConfig (f :: rest) pms ams w h =
          .ok { format := f, width := w, height := h,
                present_mode := pms.headD Rugu.PresentMode.Fifo,
                alpha_mode := ams.headD Rugu.CompositeAlphaMode.defaultMode }) ∧
      (∀ (A B : Rugu.TextureFormat) (X : Rugu.CompositeAlphaMode),
        Rugu.newSurfaceConfig [A, B] [] [X] w h =
          .ok { format := A, width := w, height := h,
                present_mode := Rugu.PresentMode.Fifo,
                alpha_mode := X }) := by
  intro pms ams w h
  refine ⟨rfl, ?_, ?_⟩
  · intro f rest
    cases pms <;> cases ams <;> rfl
  · intro A B X
    rfl

/-- Claim C1 (evaluation at the failing input): on an Outdated or Lost
acquisition error the lib.rs driver merely logs a warning and returns — it
emits no reconfigure, no submit and no present — and the game-of-life.rs
driver panics through the todo! arm; neither variant reconfigures the
surface as the claim states. -/
theorem draw_outdated_lost_never_reconfigures :
    ∀ (s : Rugu.Lib.State) (s2 : Rugu.Bin.State) (now : Nat),
      (Rugu.Lib.State.draw s now (.err .Outdated)).2.1 = Rugu.Outcome.returned ∧
      (Rugu.Lib.State.draw s now (.err .Outdated)).2.2 = [Rugu.Effect.warnLog] ∧
      (Rugu.Lib.State.draw s now (.err .Lost)).2.2 = [Rugu.Effect.warnLog] ∧
      (∀ w h, Rugu.Effect.reconfigure w h ∉ (Rugu.Lib.State.draw s now (.err .Outdated)).2.2) ∧
      (∀ w h, Rugu.Effect.reconfigure w h ∉ (Rugu.Lib.State.draw s now (.err .Lost)).2.2) ∧
      (Rugu.Bin.State.draw s2 now (.err .Outdated)).2.1 =
        Rugu.Outcome.panicked
          ("not yet implemented: Need to handle lost and outdated surface errors; recreate surface") ∧
      (Rugu.Bin.State.draw s2 now (.err .Lost)).2.1 =
        Rugu.Outcome.panicked
          ("not yet implemented: Need to handle lost and outdated surface errors; recreate surface") := by
  intro s s2 now
  refine ⟨rfl, rfl, rfl, ?_, ?_, rfl, rfl⟩ <;>
    · intro w h hmem
      simp [Rugu.Lib.State.draw] at hmem

/-- Claim C3: when acquisition returns Timeout, both draw variants return
immediately with no recorded, submitted or presented commands, surface no
error to the caller, and have still updated the frame-time counter. -/
theorem draw_timeout_updates_counter_only :
    ∀ (s : Rugu.Lib.State) (s2 : Rugu.Bin.State) (now : Nat),
      Rugu.Lib.State.draw s now (.err .Timeout) =
        ({ s with counter := now }, Rugu.Outcome.returned, []) ∧
      Rugu.Bin.State.draw s2 now (.err .Timeout) =
        ({ s2 with counter := now }, Rugu.Outcome.returned, []) := by
  intro s s2 now
  exact ⟨rfl, rfl⟩

/-- Claim C4 counterexample: from a stored configuration of 800 by 600, a
resize event to the non-zero size 100 by 100 for the owned window leaves the
stored configuration at 800 by 600 — the event loop ignores resize events —
contradicting the claim that a non-zero resize updates the configuration to
exactly that size. -/
theorem resize_not_applied_counterexample :
    (Rugu.run_step
        { counter := 0, windowId := 7,
          config := { format := 0, width := 800, height := 600,
                      present_mode := Rugu.PresentMode.Fifo,
                      alpha_mode := Rugu.CompositeAlphaMode.Auto } }
        Rugu.ControlFlow.Poll
        (Rugu.Event.WindowEvent 7 (Rugu.WindowEvt.Resized 100 100)) 1
        Rugu.AcquireResult.ok).1.config.width = 800 ∧
    (Rugu.run_step
        { counter := 0, windowId := 7,
          config := { format := 0, width := 800, height := 600,
                      present_mode := Rugu.PresentMode.Fifo,
                      alpha_mode := Rugu.CompositeAlphaMode.Auto } }
        Rugu.ControlFlow.Poll
        (Rugu.Event.WindowEvent 7 (Rugu.WindowEvt.Resized 100 100)) 1
        Rugu.AcquireResult.ok).1.config.width ≠ 100 := by
  exact ⟨rfl, by decide⟩

/-- Claim C4 as amended: every resize request — with zero or non-zero
dimensions, for any window identifier — leaves the stored surface
configuration unchanged, because the event loop ignores resize events
entirely; the configuration therefore always keeps its startup size. -/
theorem resize_events_leave_config_unchanged :
    ∀ (s : Rugu.Bin.State) (flow : Rugu.ControlFlow) (wid w h now : Nat)
      (acq : Rugu.AcquireResult),
      (Rugu.run_step s flow (Rugu.Event.WindowEvent wid (Rugu.WindowEvt.Resized w h))
          now acq).1.config = s.config := by
  intro s flow wid w h now acq
  simp only [Rugu.run_step]
  split <;> rfl

/-- Claim C5: per draw call, exactly one command buffer is submitted when
acquisition succeeds and zero when draw returns early on an acquisition
error, in both variants; in particular never more than one. -/
theorem at_most_one_submit_per_draw :
    ∀ (s : Rugu.Lib.State) (s2 : Rugu.Bin.State) (now : Nat) (acq : Rugu.AcquireResult),
      Rugu.submitCount (Rugu.Lib.State.draw s now acq).2.2 =
        (if acq = .ok then 1 else 0) ∧
      Rugu.submitCount (Rugu.Bin.State.draw s2 now acq).2.2 =
        (if acq = .ok then 1 else 0) := by
  intro s s2 now acq
  rcases acq with _ | e
  · exact ⟨rfl, rfl⟩
  · rcases e <;> exact ⟨rfl, rfl⟩

/-- Claim C6: when acquisition returns OutOfMemory, both draw variants treat
the error as fatal, panicking with a diagnostic message and recording,
submitting and presenting nothing. -/
theorem draw_out_of_memory_is_fatal :
    ∀ (s : Rugu.Lib.State) (s2 : Rugu.Bin.State) (now : Nat),
      (Rugu.Lib.State.draw s now (.err .OutOfMemory)).2.1 =
        Rugu.Outcome.panicked ("Out of memory!") ∧
      (Rugu.Lib.State.draw s now (.err .OutOfMemory)).2.2 = [] ∧
      (Rugu.Bin.State.draw s2 now (.err .OutOfMemory)).2.1 =
        Rugu.Outcome.panicked ("Out of memory!") ∧
      (Rugu.Bin.State.draw s2 now (.err .OutOfMemory)).2.2 = [] := by
  intro s s2 now
  exact ⟨rfl, rfl, rfl, rfl⟩

/-- Claim C7: an Escape press sets the control flow to Exit, the matching
Escape release leaves the control flow unchanged, and a press-and-release
sequence for Escape yields exactly one exit signal. -/
theorem escape_press_single_exit_signal :
    ∀ (flow : Rugu.ControlFlow),
      Rugu.handle_keyboard_input
          { state := .Pressed, virtual_keycode := some .Escape } flow =
        Rugu.ControlFlow.Exit ∧
      Rugu.handle_keyboard_input
          { state := .Released, virtual_keycode := some .Escape } flow = flow ∧
      Rugu.countExitSignals
        [ { state := .Pressed, virtual_keycode := some .Escape },
          { state := .Released, virtual_keycode := some .Escape } ] = 1 := by
  intro flow
  exact ⟨rfl, rfl, by decide⟩

/-- Claim C8: on every successful acquisition, each variant records exactly
one render pass clearing to the fixed color red and issues exactly one draw
call; the lib.rs variant binds the vertex buffer, the instance buffer and
the bind group and draws the full vertex range 0..4 (all of SQUARE_VERTICES)
and the full instance range 0..1 (all of INSTANCE_DATA); the bufferless
game-of-life.rs variant draws with instance range 0..1. -/
theorem render_pass_single_draw_call :
    ∀ (s : Rugu.Lib.State) (s2 : Rugu.Bin.State) (now : Nat),
      ((Rugu.Lib.State.draw s now .ok).2.2.filter Rugu.isRenderPass).length = 1 ∧
      Rugu.Effect.beginRenderPass (1, 0, 0, 1) ∈ (Rugu.Lib.State.draw s now .ok).2.2 ∧
      ((Rugu.Lib.State.draw s now .ok).2.2.filter Rugu.isDrawCall).length = 1 ∧
      Rugu.Effect.drawCall 0 Rugu.SQUARE_VERTICES.length 0 Rugu.INSTANCE_DATA.length ∈
        (Rugu.Lib.State.draw s now .ok).2.2 ∧
      Rugu.Effect.setVertexBuffer 0 ∈ (Rugu.Lib.State.draw s now .ok).2.2 ∧
      Rugu.Effect.setVertexBuffer 1 ∈ (Rugu.Lib.State.draw s now .ok).2.2 ∧
      Rugu.Effect.setBindGroup 0 ∈ (Rugu.Lib.State.draw s now .ok).2.2 ∧
      ((Rugu.Bin.State.draw s2 now .ok).2.2.filter Rugu.isRenderPass).length = 1 ∧
      Rugu.Effect.beginRenderPass (1, 0, 0, 1) ∈ (Rugu.Bin.State.draw s2 now .ok).2.2 ∧
      ((Rugu.Bin.State.draw s2 now .ok).2.2.filter Rugu.isDrawCall).length = 1 ∧
      Rugu.Effect.drawCall 0 1 0 1 ∈ (Rugu.Bin.State.draw s2 now .ok).2.2 := by
  intro s s2 now
  refine ⟨rfl, ?_, rfl, ?_, ?_, ?_, ?_, rfl, ?_, rfl, ?_⟩ <;>
    simp [Rugu.Lib.State.draw, Rugu.Bin.State.draw]

/-- Claim C9: every keyboard input event that is not an Escape press — a
missing virtual key code, any non-Escape key code, or an Escape release —
leaves the control flow unchanged; the handler is a total function, so it
cannot panic. -/
theorem non_escape_input_is_noop :
    ∀ (input : Rugu.KeyboardInput) (flow : Rugu.ControlFlow),
      (input.virtual_keycode = none ∨
       (∀ c, input.virtual_keycode = some c → c ≠ Rugu.VirtualKeyCode.Escape) ∨
       input.state = Rugu.ElementState.Released) →
      Rugu.handle_keyboard_input input flow = flow := by
  rintro ⟨st, kc⟩ flow h
  rcases kc with _ | c
  · rfl
  · rcases c with _ | _ | n
    · rcases h with h1 | h2 | h3
      · exact absurd h1 (by simp)
      · exact absurd rfl (h2 _ rfl)
      · subst h3
        rfl
    · rcases st <;> rfl
    · rcases st <;> rfl

/-- Witness for claim C9: a Space press leaves a Poll control flow unchanged. -/
theorem non_escape_input_is_noop_witness :
    Rugu.handle_keyboard_input
        { state := .Pressed, virtual_keycode := some .Space } Rugu.ControlFlow.Poll =
      Rugu.ControlFlow.Poll :=
  non_escape_input_is_noop
    { state := .Pressed, virtual_keycode := some .Space } Rugu.ControlFlow.Poll
    (Or.inr (Or.inl (by intro c hc; cases hc; decide)))

/-- Claim C10: for every logical instance with translation (x, y), the derived
InstanceRaw is exactly the homogeneous 4x4 translation matrix for (x, y, 0):
reading entry (row r, column c) from the column-major storage, it is the
identity matrix except that column 3 is the translation column (x, y, 0, 1). -/
theorem instance_raw_is_translation_matrix :
    ∀ (x y : ℚ) (r c : Fin 4),
      (Rugu.InstanceRaw.ofInstance { position := (x, y) }).position c r =
        (if c = 3 then ![x, y, 0, 1] r else if r = c then 1 else 0) := by
  intro x y r c
  fin_cases r <;> fin_cases c <;>
    simp [Rugu.InstanceRaw.ofInstance, Rugu.Matrix4.from_translation]
